import Mathlib

/-!
Verification development for a small E-Learning HTTP service
(Node.js + Express + MongoDB, `src/server.js`).

The service is embedded shallowly: the document store is a record of three
lists (users, courses, enrollments), ObjectIds are 24-hex-character strings,
and each route handler becomes a pure function from the store (plus request
data and fresh identifiers/timestamps supplied by the environment) to the
new store and an HTTP response.  A `thrown` parameter on each handler models
an exception raised by the storage layer inside the handler's try block
(connection or query failure); the handler's catch clause maps it to a
response, exactly as in the source.
-/

/-- Character class used by MongoDB ObjectId syntax: hexadecimal digit. -/
def isHexDigitChar (c : Char) : Bool :=
  (('0' ≤ c) && (c ≤ '9')) || (('a' ≤ c) && (c ≤ 'f')) || (('A' ≤ c) && (c ≤ 'F'))

/-- A syntactically well-formed MongoDB ObjectId: 24 hexadecimal characters.
Passing a malformed id to a Mongoose query raises a CastError, which the
handlers catch. -/
def isValidObjectId (s : String) : Bool :=
  s.data.length == 24 && s.data.all isHexDigitChar

/-- Mongoose CastError message raised on a malformed ObjectId. -/
def castErrMsg : String := "Cast to ObjectId failed"

/-- A persisted User document (userSchema, `src/server.js` lines 18-22):
`name` optional, `email` required and unique, `role` enumerated with default
"student"; `timestamps: true` adds creation time; `v` is the internal
version field `__v` that Mongoose stores on every document. -/
structure UserDoc where
  id : String
  name : Option String
  email : String
  role : String
  v : Nat
  createdAt : Nat
deriving DecidableEq, Repr

/-- The shape of a User as returned by the read endpoints, which apply
select of minus __v: all stored fields except the version field. -/
structure UserOut where
  id : String
  name : Option String
  email : String
  role : String
  createdAt : Nat
deriving DecidableEq, Repr

/-- Projection applied by the user read endpoints (select excluding __v). -/
def stripV (u : UserDoc) : UserOut :=
  { id := u.id, name := u.name, email := u.email, role := u.role,
    createdAt := u.createdAt }

/-- A persisted Course document (courseSchema, lines 24-30): required title,
optional description, instructor reference to a User, price default 0,
published default false, timestamps. -/
structure CourseDoc where
  id : String
  title : String
  description : Option String
  instructor : Option String
  price : Int
  published : Bool
  createdAt : Nat
deriving DecidableEq, Repr

/-- A persisted Enrollment document (enrollmentSchema, lines 32-37): student
and course references (neither marked required), progress default 0,
enrolledAt default now. -/
structure EnrollmentDoc where
  id : String
  student : String
  course : String
  progress : Int
  enrolledAt : Nat
deriving DecidableEq, Repr

/-- The document store: the three MongoDB collections. -/
structure DB where
  users : List UserDoc
  courses : List CourseDoc
  enrollments : List EnrollmentDoc
deriving DecidableEq, Repr

/-- A Course as returned by the course read endpoints after populate of the
instructor reference selecting the name field: the reference is replaced by
the referenced User's name (outer `none` when the reference is absent or
dangling, in which case populate yields null). -/
structure PopCourse where
  id : String
  title : String
  description : Option String
  instructor : Option (Option String)
  price : Int
  published : Bool
  createdAt : Nat
deriving DecidableEq, Repr

/-- Populate of the instructor reference with selection of the name field,
as in `.populate(instructor, name)` on the course queries. -/
def populateCourse (db : DB) (c : CourseDoc) : PopCourse :=
  { id := c.id, title := c.title, description := c.description,
    instructor :=
      (c.instructor.bind (fun iid => db.users.find? (fun u => u.id == iid))).map
        (fun u => u.name),
    price := c.price, published := c.published, createdAt := c.createdAt }

/-- An Enrollment as returned by the my-courses endpoint after populate of
the course reference (full course document, `none` when dangling). -/
structure PopEnrollment where
  id : String
  student : String
  course : Option CourseDoc
  progress : Int
  enrolledAt : Nat
deriving DecidableEq, Repr

/-- Populate of the course reference on an enrollment, as in
`.populate(course)` on the my-courses query. -/
def populateEnrollment (db : DB) (e : EnrollmentDoc) : PopEnrollment :=
  { id := e.id, student := e.student,
    course := db.courses.find? (fun c => c.id == e.course),
    progress := e.progress, enrolledAt := e.enrolledAt }

/-- JSON response bodies produced by the route handlers. -/
inductive Resp where
  | err (msg : String)
  | registered (msg : String) (u : UserDoc)
  | user (u : UserOut)
  | users (l : List UserOut)
  | course (c : PopCourse)
  | courses (l : List PopCourse)
  | courseRaw (c : CourseDoc)
  | enrolled (msg : String) (e : EnrollmentDoc)
  | enrollments (l : List PopEnrollment)
  | enrollment (e : Option EnrollmentDoc)
  | text (s : String)
deriving DecidableEq, Repr

/-- A database connection handle (the value cached in the module-level
`conn` variable by `connectDB`). -/
abbrev Conn := Nat

/-- Connection manager `connectDB` (`src/server.js` lines 44-63).  State is
the cached handle `conn`; inputs are the configured connection string
`MONGODB_URI` (absent when the environment variable is unset) and the
outcome `att` of the driver's connection attempt, were one to be made.
Returns the new cached state together with the result delivered to the
caller (`Except.error` models a thrown exception). -/
def connectDB (conn : Option Conn) (uri : Option String)
    (att : Except String Conn) : Option Conn × Except String Conn :=
  match conn with
  | some c => (some c, Except.ok c)
  | none =>
    match uri with
    | none => (none, Except.error "MONGODB_URI not set")
    | some _ =>
      match att with
      | Except.ok c => (some c, Except.ok c)
      | Except.error e => (none, Except.error e)

/-- Request body of POST /api/register: an arbitrary JSON object, of which
the userSchema keeps name, email and role (absent fields are `none`). -/
structure UserInput where
  name : Option String
  email : Option String
  role : Option String
deriving DecidableEq, Repr

/-- Schema check of the role enum: the submitted role, or the default
"student" when absent, must be one of the two enumerated values. -/
def roleValid (b : UserInput) : Bool :=
  b.role.getD "student" == "student" || b.role.getD "student" == "instructor"

/-- Route handler POST /api/register (lines 69-76): build a User from the
request body and save it.  Saving validates the schema (required email,
enumerated role) and the unique index on email; any failure is caught and
sent as 400 with an error field.  On success the response echoes the full
persisted document.  `newId` and `now` are the identifier and timestamp the
store assigns; `thrown` models a storage-layer exception. -/
def register (db : DB) (b : UserInput) (newId : String) (now : Nat)
    (thrown : Option String) : DB × Nat × Resp :=
  match thrown with
  | some e => (db, 400, Resp.err e)
  | none =>
    match b.email with
    | none => (db, 400, Resp.err "User validation failed: email is required")
    | some em =>
      if roleValid b then
        if db.users.any (fun u => u.email == em) then
          (db, 400, Resp.err "E11000 duplicate key error")
        else
          let u : UserDoc :=
            { id := newId, name := b.name, email := em,
              role := b.role.getD "student", v := 0, createdAt := now }
          ({ db with users := db.users ++ [u] }, 201,
            Resp.registered "Registered" u)
      else (db, 400, Resp.err "User validation failed: role is not valid")

/-- Route handler GET /api/users (lines 79-85): all User records with the
version field excluded; errors are caught and sent as 500. -/
def listUsers (db : DB) (thrown : Option String) : Nat × Resp :=
  match thrown with
  | some e => (500, Resp.err e)
  | none => (200, Resp.users (db.users.map stripV))

/-- Route handler GET /api/users/:id (lines 88-95): findById with the
version field excluded; a missing user is 404, a malformed id raises a
CastError caught by the handler and sent as 500. -/
def getUserById (db : DB) (id : String) (thrown : Option String) :
    Nat × Resp :=
  match thrown with
  | some e => (500, Resp.err e)
  | none =>
    if isValidObjectId id then
      match db.users.find? (fun u => u.id == id) with
      | none => (404, Resp.err "User not found")
      | some u => (200, Resp.user (stripV u))
    else (500, Resp.err castErrMsg)

/-- Ordering used by the course list: creation time descending, the effect
of `.sort` with createdAt mapped to -1. -/
def createdDesc (a b : PopCourse) : Prop := b.createdAt ≤ a.createdAt

instance : DecidableRel createdDesc :=
  fun a b => inferInstanceAs (Decidable (b.createdAt ≤ a.createdAt))

instance : IsTotal PopCourse createdDesc :=
  ⟨fun a b => Nat.le_total b.createdAt a.createdAt⟩

instance : IsTrans PopCourse createdDesc :=
  ⟨fun _ _ _ hab hbc => Nat.le_trans hbc hab⟩

/-- Sort of a populated course list by creation time descending. -/
def sortByCreatedDesc (l : List PopCourse) : List PopCourse :=
  List.insertionSort createdDesc l

/-- Route handler GET /api/courses (lines 98-106): find with published set
to true, populate the instructor selecting name, sort by createdAt
descending; errors are caught and sent as 500. -/
def listCourses (db : DB) (thrown : Option String) : Nat × Resp :=
  match thrown with
  | some e => (500, Resp.err e)
  | none =>
    (200, Resp.courses (sortByCreatedDesc
      ((db.courses.filter (fun c => c.published)).map (populateCourse db))))

/-- Route handler GET /api/courses/:id (lines 109-116): findById with the
instructor populated; a missing OR unpublished course is 404 Not found, a
malformed id raises a CastError caught and sent as 500. -/
def getCourseById (db : DB) (id : String) (thrown : Option String) :
    Nat × Resp :=
  match thrown with
  | some e => (500, Resp.err e)
  | none =>
    if isValidObjectId id then
      match db.courses.find? (fun c => c.id == id) with
      | none => (404, Resp.err "Not found")
      | some c =>
        if c.published then (200, Resp.course (populateCourse db c))
        else (404, Resp.err "Not found")
    else (500, Resp.err castErrMsg)

/-- Request body of POST /api/courses: course fields plus instructorId. -/
structure CourseInput where
  title : Option String
  description : Option String
  instructorId : Option String
  price : Option Int
  published : Option Bool
deriving DecidableEq, Repr

/-- Route handler POST /api/courses (lines 119-126): build a Course from
the body with instructor mapped from instructorId, save it; schema
validation (required title, instructor reference castable) failures are
caught and sent as 400. -/
def createCourse (db : DB) (b : CourseInput) (newId : String) (now : Nat)
    (thrown : Option String) : DB × Nat × Resp :=
  match thrown with
  | some e => (db, 400, Resp.err e)
  | none =>
    match b.title with
    | none => (db, 400, Resp.err "Course validation failed: title is required")
    | some t =>
      if b.instructorId.all isValidObjectId then
        let c : CourseDoc :=
          { id := newId, title := t, description := b.description,
            instructor := b.instructorId, price := b.price.getD 0,
            published := b.published.getD false, createdAt := now }
        ({ db with courses := db.courses ++ [c] }, 201, Resp.courseRaw c)
      else (db, 400, Resp.err castErrMsg)

/-- Route handler POST /api/enroll (lines 129-139): look for an existing
Enrollment with the same student and course pair; if one exists respond 400
Already enrolled without inserting, otherwise insert a new Enrollment and
respond 201.  A malformed id raises a CastError on the query, caught and
sent as 400 like every other error in this handler. -/
def enroll (db : DB) (studentId courseId : String) (newId : String)
    (now : Nat) (thrown : Option String) : DB × Nat × Resp :=
  match thrown with
  | some e => (db, 400, Resp.err e)
  | none =>
    if isValidObjectId studentId && isValidObjectId courseId then
      match db.enrollments.find?
          (fun en => en.student == studentId && en.course == courseId) with
      | some _ => (db, 400, Resp.err "Already enrolled")
      | none =>
        let en : EnrollmentDoc :=
          { id := newId, student := studentId, course := courseId,
            progress := 0, enrolledAt := now }
        ({ db with enrollments := db.enrollments ++ [en] }, 201,
          Resp.enrolled "Enrolled!" en)
    else (db, 400, Resp.err castErrMsg)

/-- Route handler GET /api/my-courses/:studentId (lines 142-149): all
Enrollments of the student with the course reference populated; errors
(including a CastError on a malformed student id) are caught and sent as
500. -/
def myCourses (db : DB) (studentId : String) (thrown : Option String) :
    Nat × Resp :=
  match thrown with
  | some e => (500, Resp.err e)
  | none =>
    if isValidObjectId studentId then
      (200, Resp.enrollments
        ((db.enrollments.filter (fun en => en.student == studentId)).map
          (populateEnrollment db)))
    else (500, Resp.err castErrMsg)

/-- Route handler PATCH /api/enrollments/:id (lines 152-162):
findByIdAndUpdate of the progress field returning the updated document;
when the id matches no record the query yields null and the handler sends
it as the JSON body with status 200; a malformed id raises a CastError
caught and sent as 400. -/
def updateProgress (db : DB) (id : String) (p : Int)
    (thrown : Option String) : DB × Nat × Resp :=
  match thrown with
  | some e => (db, 400, Resp.err e)
  | none =>
    if isValidObjectId id then
      match db.enrollments.find? (fun en => en.id == id) with
      | none => (db, 200, Resp.enrollment none)
      | some en =>
        let en2 : EnrollmentDoc := { en with progress := p }
        ({ db with enrollments :=
            db.enrollments.map (fun x => if x.id == id then en2 else x) },
          200, Resp.enrollment (some en2))
    else (db, 400, Resp.err castErrMsg)

/-- Route handler GET / (line 66): readiness message. -/
def rootHandler : Nat × Resp := (200, Resp.text "E-Learning API Ready!")

/-! Concrete fixtures used by witnesses and counterexamples. -/

/-- A well-formed ObjectId used as a student id in examples. -/
def oidA : String := "aaaaaaaaaaaaaaaaaaaaaaaa"

/-- A well-formed ObjectId used as a course id in examples. -/
def oidB : String := "bbbbbbbbbbbbbbbbbbbbbbbb"

/-- A well-formed ObjectId used as a fresh document id in examples. -/
def oidC : String := "cccccccccccccccccccccccc"

/-- A second well-formed fresh document id for examples. -/
def oidD : String := "dddddddddddddddddddddddd"

/-- The empty document store. -/
def emptyDB : DB := { users := [], courses := [], enrollments := [] }

/-- An unpublished sample course. -/
def courseUnpub : CourseDoc :=
  { id := oidB, title := "t", description := none, instructor := none,
    price := 0, published := false, createdAt := 0 }

/-- A sample user. -/
def userA : UserDoc :=
  { id := oidA, name := some "Ann", email := "a@x.io", role := "student",
    v := 0, createdAt := 0 }

/-- A store holding one unpublished course and one user. -/
def dbSample : DB := { users := [userA], courses := [courseUnpub], enrollments := [] }

/-! Theorems settling the claims. -/

/-- C6: connectDB is idempotent — a cached handle is returned unchanged on
every subsequent call without reconnecting; an absent configuration string
fails with an error; a failed connection attempt propagates the error and
caches nothing, so the next call retries and can succeed. -/
theorem connectDB_spec (c c2 : Conn) (uri : Option String)
    (att : Except String Conn) (u e : String) :
    connectDB (some c) uri att = (some c, Except.ok c) ∧
    connectDB none none att = (none, Except.error "MONGODB_URI not set") ∧
    connectDB none (some u) (Except.error e) = (none, Except.error e) ∧
    connectDB none (some u) (Except.ok c2) = (some c2, Except.ok c2) :=
  ⟨rfl, rfl, rfl, rfl⟩

/-- C2: when the id of PATCH /api/enrollments/:id matches no Enrollment,
the operation leaves the store untouched and responds with status 200 and a
null (success-shaped empty) body, not a raised NotFoundError/404. -/
theorem updateProgress_missing_id (db : DB) (id : String) (p : Int)
    (hv : isValidObjectId id = true)
    (hn : db.enrollments.find? (fun en => en.id == id) = none) :
    updateProgress db id p none = (db, 200, Resp.enrollment none) := by
  simp [updateProgress, hv, hn]

/-- Witness for C2 at a concrete input: the empty store and a well-formed
unmatched id. -/
theorem updateProgress_missing_id_witness :
    updateProgress emptyDB oidA 50 none = (emptyDB, 200, Resp.enrollment none) :=
  updateProgress_missing_id emptyDB oidA 50 (by decide) rfl

/-- C8 counterexample: a storage error thrown inside the enroll handler is
surfaced with HTTP status 400, not 500 as the claim states. -/
theorem storage_error_enroll_counterexample :
    (enroll emptyDB oidA oidB oidC 0 (some "connection failed")).2.1 = 400 ∧
    (400 : Nat) ≠ 500 :=
  ⟨rfl, by decide⟩

/-- C8 amended: every route handler catches a storage error and maps it to
an error-field body, but the status split follows the handler: the GET
handlers surface it as 500 while the register, create-course, enroll and
update-progress handlers surface it as 400. -/
theorem storage_error_mapping (db : DB) (e : String) (b : UserInput)
    (cb : CourseInput) (id s c nid : String) (now : Nat) (p : Int) :
    register db b nid now (some e) = (db, 400, Resp.err e) ∧
    listUsers db (some e) = (500, Resp.err e) ∧
    getUserById db id (some e) = (500, Resp.err e) ∧
    listCourses db (some e) = (500, Resp.err e) ∧
    getCourseById db id (some e) = (500, Resp.err e) ∧
    createCourse db cb nid now (some e) = (db, 400, Resp.err e) ∧
    enroll db s c nid now (some e) = (db, 400, Resp.err e) ∧
    myCourses db s (some e) = (500, Resp.err e) ∧
    updateProgress db id p (some e) = (db, 400, Resp.err e) :=
  ⟨rfl, rfl, rfl, rfl, rfl, rfl, rfl, rfl, rfl⟩

/-- C4: with a well-formed id, GET /api/courses/:id responds with the very
same 404 Not found body both when no course has the id and when the course
exists but is unpublished, so the two cases are indistinguishable to the
caller; a published course is returned with its instructor populated. -/
theorem getCourseById_spec (db : DB) (id : String)
    (hv : isValidObjectId id = true) :
    (db.courses.find? (fun c => c.id == id) = none →
      getCourseById db id none = (404, Resp.err "Not found")) ∧
    (∀ c, db.courses.find? (fun x => x.id == id) = some c →
      c.published = false →
      getCourseById db id none = (404, Resp.err "Not found")) ∧
    (∀ c, db.courses.find? (fun x => x.id == id) = some c →
      c.published = true →
      getCourseById db id none = (200, Resp.course (populateCourse db c))) := by
  refine ⟨fun hn => ?_, fun c hf hp => ?_, fun c hf hp => ?_⟩ <;>
    simp [getCourseById, hv, *]

/-- Witness for C4 at a concrete input: a store with one unpublished
course; its id and a missing id both give the identical 404 response. -/
theorem getCourseById_spec_witness :
    getCourseById dbSample oidB none = (404, Resp.err "Not found") ∧
    getCourseById dbSample oidC none = (404, Resp.err "Not found") :=
  ⟨(getCourseById_spec dbSample oidB (by decide)).2.1 courseUnpub (by decide) rfl,
   (getCourseById_spec dbSample oidC (by decide)).1 (by decide)⟩

/-- C7: GET /api/users/:id returns a matching user with the version field
excluded (the output shape is independent of the stored version), responds
404 with an error field when no user matches, and on a syntactically
malformed id the raised CastError is caught and surfaced as a 500 JSON
error response instead of crashing. -/
theorem getUserById_spec (db : DB) (id : String) :
    (∀ u, isValidObjectId id = true →
      db.users.find? (fun x => x.id == id) = some u →
      getUserById db id none = (200, Resp.user (stripV u))) ∧
    (isValidObjectId id = true →
      db.users.find? (fun x => x.id == id) = none →
      getUserById db id none = (404, Resp.err "User not found")) ∧
    (isValidObjectId id = false →
      getUserById db id none = (500, Resp.err castErrMsg)) ∧
    (∀ u n2, stripV { u with v := n2 } = stripV u) := by
  refine ⟨fun u h1 h2 => ?_, fun h1 h2 => ?_, fun h1 => ?_, fun u n2 => rfl⟩ <;>
    simp [getUserById, *]

/-- Witness for C7 at concrete inputs: the sample store serves its user
with the version stripped, 404s an unmatched id, and maps a malformed id to
a caught 500 error. -/
theorem getUserById_spec_witness :
    getUserById dbSample oidA none = (200, Resp.user (stripV userA)) ∧
    getUserById dbSample oidC none = (404, Resp.err "User not found") ∧
    getUserById dbSample "not-an-objectid" none = (500, Resp.err castErrMsg) :=
  ⟨(getUserById_spec dbSample oidA).1 userA (by decide) (by decide),
   (getUserById_spec dbSample oidC).2.1 (by decide) (by decide),
   (getUserById_spec dbSample "not-an-objectid").2.2.1 (by decide)⟩

/-- C3: for every store, GET /api/courses responds 200 with a list that is
a permutation of exactly the published courses (instructor reference
resolved to the name), is sorted by creation time descending, and whose
members are precisely the populated published courses. -/
theorem listCourses_spec (db : DB) :
    ∃ out, listCourses db none = (200, Resp.courses out) ∧
      out.Perm ((db.courses.filter (fun c => c.published)).map (populateCourse db)) ∧
      List.Sorted createdDesc out ∧
      ∀ pc, pc ∈ out ↔
        ∃ c, c ∈ db.courses ∧ c.published = true ∧ populateCourse db c = pc := by
  refine ⟨_, rfl, List.perm_insertionSort _ _, List.sorted_insertionSort _ _, ?_⟩
  intro pc
  simp only [sortByCreatedDesc]
  rw [(List.perm_insertionSort createdDesc _).mem_iff, List.mem_map]
  constructor
  · rintro ⟨c, hc, rfl⟩
    rw [List.mem_filter] at hc
    exact ⟨c, hc.1, hc.2, rfl⟩
  · rintro ⟨c, hc, hp, rfl⟩
    exact ⟨c, List.mem_filter.mpr ⟨hc, hp⟩, rfl⟩

/-- Helper: the enrollments of a store that already holds the pair and the
response of a second enroll attempt, built by running the first enroll. -/
def dbAfterFirstEnroll : DB := (enroll emptyDB oidA oidB oidC 0 none).1

/-- C1 counterexample: after a first successful enroll, the second enroll
for the same pair is rejected with the body message "Already enrolled"
(capital A), not the message "already enrolled" stated by the claim. -/
theorem enroll_duplicate_message_counterexample :
    (enroll dbAfterFirstEnroll oidA oidB oidD 1 none).2.2 =
      Resp.err "Already enrolled" ∧
    (enroll dbAfterFirstEnroll oidA oidB oidD 1 none).2.2 ≠
      Resp.err "already enrolled" := by
  constructor
  · decide
  · decide

/-- C1 amended: with well-formed ids and no existing Enrollment for the
pair, the first enroll creates and returns the Enrollment with 201; the
second sequential enroll for the same pair responds 400 with message
"Already enrolled" (capitalized as in the code) and inserts nothing, so
exactly one Enrollment for the pair persists. -/
theorem enroll_twice_spec (db : DB) (s c nid1 nid2 : String) (t1 t2 : Nat)
    (hs : isValidObjectId s = true) (hc : isValidObjectId c = true)
    (h0 : db.enrollments.find?
      (fun en => en.student == s && en.course == c) = none) :
    ∃ en db1,
      enroll db s c nid1 t1 none = (db1, 201, Resp.enrolled "Enrolled!" en) ∧
      en.student = s ∧ en.course = c ∧
      enroll db1 s c nid2 t2 none = (db1, 400, Resp.err "Already enrolled") ∧
      db1.enrollments.countP
        (fun en => en.student == s && en.course == c) = 1 := by
  refine ⟨⟨nid1, s, c, 0, t1⟩,
    { db with enrollments := db.enrollments ++ [⟨nid1, s, c, 0, t1⟩] },
    ?_, rfl, rfl, ?_, ?_⟩
  · simp [enroll, hs, hc, h0]
  · have hfind : (db.enrollments ++
        [(⟨nid1, s, c, 0, t1⟩ : EnrollmentDoc)]).find?
          (fun en => en.student == s && en.course == c) =
        some ⟨nid1, s, c, 0, t1⟩ := by
      rw [List.find?_append, h0]
      simp
    simp [enroll, hs, hc, hfind]
  · have h0c : db.enrollments.countP
        (fun en => en.student == s && en.course == c) = 0 := by
      rw [List.countP_eq_zero]
      exact List.find?_eq_none.mp h0
    simp [List.countP_append, h0c]

/-- Witness for C1 (amended) at a concrete input: the empty store with
well-formed student and course ids. -/
theorem enroll_twice_spec_witness :
    ∃ en db1,
      enroll emptyDB oidA oidB oidC 0 none =
        (db1, 201, Resp.enrolled "Enrolled!" en) ∧
      en.student = oidA ∧ en.course = oidB ∧
      enroll db1 oidA oidB oidD 1 none =
        (db1, 400, Resp.err "Already enrolled") ∧
      db1.enrollments.countP
        (fun en => en.student == oidA && en.course == oidB) = 1 :=
  enroll_twice_spec emptyDB oidA oidB oidC oidD 0 1
    (by decide) (by decide) rfl

/-- C10: the enroll handler never consults the User or Course collections —
its response and resulting enrollments are identical whatever those
collections hold — and with well-formed ids that match no existing User and
no existing Course it still creates and returns (201) an Enrollment holding
the dangling references. -/
theorem enroll_dangling_refs (db : DB) (s c nid : String) (t : Nat)
    (hs : isValidObjectId s = true) (hc : isValidObjectId c = true)
    (hnu : db.users.find? (fun u => u.id == s) = none)
    (hnc : db.courses.find? (fun x => x.id == c) = none)
    (h0 : db.enrollments.find?
      (fun en => en.student == s && en.course == c) = none) :
    (∀ us2 cs2 th,
      (enroll db s c nid t th).2 =
        (enroll (DB.mk us2 cs2 db.enrollments) s c nid t th).2 ∧
      (enroll db s c nid t th).1.enrollments =
        (enroll (DB.mk us2 cs2 db.enrollments) s c nid t th).1.enrollments) ∧
    enroll db s c nid t none =
      ({ db with enrollments := db.enrollments ++ [⟨nid, s, c, 0, t⟩] },
        201, Resp.enrolled "Enrolled!" ⟨nid, s, c, 0, t⟩) := by
  constructor
  · intro us2 cs2 th
    cases th with
    | some e => exact ⟨rfl, rfl⟩
    | none =>
      by_cases hval : (isValidObjectId s && isValidObjectId c) = true
      · cases hfind : db.enrollments.find?
            (fun en => en.student == s && en.course == c) with
        | none => simp [enroll, hval, hfind]
        | some en => simp [enroll, hval, hfind]
      · simp [enroll, hval]
  · simp [enroll, hs, hc, h0]

/-- Witness for C10 at a concrete input: the empty store, whose User and
Course collections contain nothing at all, still accepts the enrollment. -/
theorem enroll_dangling_refs_witness :
    (∀ us2 cs2 th,
      (enroll emptyDB oidA oidB oidC 7 th).2 =
        (enroll (DB.mk us2 cs2 emptyDB.enrollments) oidA oidB oidC 7 th).2 ∧
      (enroll emptyDB oidA oidB oidC 7 th).1.enrollments =
        (enroll (DB.mk us2 cs2 emptyDB.enrollments) oidA oidB oidC 7 th).1.enrollments) ∧
    enroll emptyDB oidA oidB oidC 7 none =
      ({ emptyDB with enrollments :=
          emptyDB.enrollments ++ [⟨oidC, oidA, oidB, 0, 7⟩] },
        201, Resp.enrolled "Enrolled!" ⟨oidC, oidA, oidB, 0, 7⟩) :=
  enroll_dangling_refs emptyDB oidA oidB oidC 7
    (by decide) (by decide) rfl rfl rfl

/-- Emails are pairwise distinct across the persisted Users. -/
def uniqueEmails (db : DB) : Prop :=
  db.users.Pairwise (fun a b => a.email ≠ b.email)

/-- One registration request: the body plus the id and timestamp the store
assigns to the document. -/
def registerStep (db : DB) (r : UserInput × String × Nat) : DB :=
  (register db r.1 r.2.1 r.2.2 none).1

/-- A sequence of sequential registration requests applied to the store. -/
def registerAll (db : DB) (reqs : List (UserInput × String × Nat)) : DB :=
  reqs.foldl registerStep db

/-- One registration preserves pairwise-distinct emails: the unique-index
check rejects a duplicate before anything is inserted. -/
theorem registerStep_uniqueEmails (db : DB) (r : UserInput × String × Nat)
    (hu : uniqueEmails db) : uniqueEmails (registerStep db r) := by
  unfold registerStep register
  cases hb : r.1.email with
  | none => exact hu
  | some em =>
    by_cases hrole : roleValid r.1
    · cases hany : db.users.any (fun u => u.email == em) with
      | true => simp only [hrole, hany]; exact hu
      | false =>
        simp only [hrole, hany, if_true, if_false, Bool.false_eq_true]
        unfold uniqueEmails
        rw [List.pairwise_append]
        refine ⟨hu, List.pairwise_singleton _ _, ?_⟩
        intro a ha b hb2
        rw [List.mem_singleton] at hb2
        subst hb2
        intro hcontra
        have : db.users.any (fun u => u.email == em) = true :=
          List.any_eq_true.mpr ⟨a, ha, beq_iff_eq.mpr hcontra⟩
        rw [hany] at this
        exact Bool.false_ne_true this
    · simp only [hrole, if_false]
      exact hu

/-- A whole sequence of registrations preserves pairwise-distinct emails. -/
theorem registerAll_uniqueEmails (reqs : List (UserInput × String × Nat))
    (db : DB) (hu : uniqueEmails db) : uniqueEmails (registerAll db reqs) := by
  induction reqs generalizing db with
  | nil => exact hu
  | cons r reqs ih => exact ih _ (registerStep_uniqueEmails db r hu)

/-- Pairwise-distinct emails bound the count of any fixed email by one. -/
theorem countP_email_le_one (l : List UserDoc) (e : String)
    (h : l.Pairwise (fun a b => a.email ≠ b.email)) :
    l.countP (fun u => u.email == e) ≤ 1 := by
  induction l with
  | nil => simp
  | cons a l ih =>
    rcases List.pairwise_cons.mp h with ⟨ha, hl⟩
    rw [List.countP_cons]
    by_cases hae : a.email = e
    · have h0 : l.countP (fun u => u.email == e) = 0 := by
        rw [List.countP_eq_zero]
        intro x hx hx2
        exact ha x hx (hae.trans (beq_iff_eq.mp hx2).symm)
      simp [h0, hae]
    · have h1 : ((a.email == e) = true) = False := by
        simp [hae]
      rw [if_neg (h1 ▸ id)]
      simpa using ih hl

/-- C5: registering a body whose email is already held by a persisted User
fails with 400 and an error-field body and persists nothing; and starting
from any store with pairwise-distinct emails, after any sequence of
sequential registrations at most one User per email exists. -/
theorem register_unique_email (db : DB) (b : UserInput) (nid em : String)
    (now : Nat) (reqs : List (UserInput × String × Nat))
    (hb : b.email = some em)
    (hdup : db.users.any (fun u => u.email == em) = true)
    (hu : uniqueEmails db) :
    (register db b nid now none).1 = db ∧
    (register db b nid now none).2.1 = 400 ∧
    (∃ m, (register db b nid now none).2.2 = Resp.err m) ∧
    ∀ e2, (registerAll db reqs).users.countP (fun u => u.email == e2) ≤ 1 := by
  refine ⟨?_, ?_, ?_, ?_⟩
  · unfold register
    rw [hb]
    by_cases hrole : roleValid b <;> simp [hrole, hdup]
  · unfold register
    rw [hb]
    by_cases hrole : roleValid b <;> simp [hrole, hdup]
  · unfold register
    rw [hb]
    by_cases hrole : roleValid b <;> simp [hrole, hdup]
  · intro e2
    exact countP_email_le_one _ e2 (registerAll_uniqueEmails reqs db hu)

/-- Witness for C5 at a concrete input: a store already holding a user with
the sample email rejects a second registration of that email and keeps the
email count at one through a further registration sequence. -/
theorem register_unique_email_witness :
    (register dbSample (UserInput.mk none (some "a@x.io") none)
        oidC 1 none).1 = dbSample ∧
    (register dbSample (UserInput.mk none (some "a@x.io") none)
        oidC 1 none).2.1 = 400 ∧
    (∃ m, (register dbSample (UserInput.mk none (some "a@x.io") none)
        oidC 1 none).2.2 = Resp.err m) ∧
    ∀ e2, (registerAll dbSample
        [(UserInput.mk none (some "a@x.io") none, oidC, 1),
         (UserInput.mk (some "Bo") (some "b@x.io") none, oidD, 2)]).users.countP
      (fun u => u.email == e2) ≤ 1 :=
  register_unique_email dbSample (UserInput.mk none (some "a@x.io") none)
    oidC "a@x.io" 1
    [(UserInput.mk none (some "a@x.io") none, oidC, 1),
     (UserInput.mk (some "Bo") (some "b@x.io") none, oidD, 2)]
    rfl (by decide) (by simp [uniqueEmails, dbSample])

/-- C9: a successful registration responds 201 echoing the complete
persisted User document — including the internal version field, which is
present on the echoed document (value 0) — whereas the user read endpoints
apply the version-stripping projection, whose output is independent of the
version field. -/
theorem register_echoes_full_doc (db : DB) (b : UserInput) (nid em : String)
    (now : Nat)
    (hb : b.email = some em) (hrole : roleValid b = true)
    (hdup : db.users.any (fun u => u.email == em) = false)
    (hv : isValidObjectId nid = true)
    (hfresh : db.users.find? (fun u => u.id == nid) = none) :
    ∃ u db1,
      register db b nid now none = (db1, 201, Resp.registered "Registered" u) ∧
      db1.users = db.users ++ [u] ∧ u.v = 0 ∧ u.id = nid ∧ u.email = em ∧
      getUserById db1 nid none = (200, Resp.user (stripV u)) ∧
      listUsers db1 none = (200, Resp.users (db1.users.map stripV)) ∧
      ∀ w n2, stripV { w with v := n2 } = stripV w := by
  refine ⟨⟨nid, b.name, em, b.role.getD "student", 0, now⟩,
    { db with users := db.users ++
        [⟨nid, b.name, em, b.role.getD "student", 0, now⟩] },
    ?_, rfl, rfl, rfl, rfl, ?_, rfl, fun w n2 => rfl⟩
  · unfold register
    rw [hb]
    simp [hrole, hdup]
  · have hfind : (db.users ++
        [(⟨nid, b.name, em, b.role.getD "student", 0, now⟩ : UserDoc)]).find?
          (fun u => u.id == nid) =
        some ⟨nid, b.name, em, b.role.getD "student", 0, now⟩ := by
      rw [List.find?_append, hfresh]
      simp
    simp [getUserById, hv, hfind]

/-- Witness for C9 at a concrete input: registering a fresh email into the
sample store echoes the full document and the read endpoint strips the
version field. -/
theorem register_echoes_full_doc_witness :
    ∃ u db1,
      register dbSample (UserInput.mk (some "Bo") (some "b@x.io") none)
          oidC 3 none = (db1, 201, Resp.registered "Registered" u) ∧
      db1.users = dbSample.users ++ [u] ∧ u.v = 0 ∧ u.id = oidC ∧
      u.email = "b@x.io" ∧
      getUserById db1 oidC none = (200, Resp.user (stripV u)) ∧
      listUsers db1 none = (200, Resp.users (db1.users.map stripV)) ∧
      ∀ w n2, stripV { w with v := n2 } = stripV w :=
  register_echoes_full_doc dbSample
    (UserInput.mk (some "Bo") (some "b@x.io") none) oidC "b@x.io" 3
    rfl (by decide) (by decide) (by decide) (by decide)

